import Mathlib

/-!
Shallow embedding of `src/kedro_dolt_demo/hooks.py` (class `KedroDolt`).

The Python class holds connection settings and two mutable fields
(`_branch`, `_original_branch`); each database-touching method opens a
connection, issues a fixed sequence of SQL statements, and is wrapped by
the decorator `log_pymysql_error`, which catches
`pymysql.err.OperationalError`, logs `repr(e)` as a warning, and returns
`None` instead of propagating.

The embedding makes the hidden state explicit:
  * `KedroDolt` mirrors the instance fields set in `__init__`;
  * `DBState` models the observable state of the Dolt database that the
    issued statements read and write (active branch, branch list, whether
    `dolt_status` reports pending rows, the next commit hash the server
    would return, and the `@@<database>_head` session variable);
  * every operation also returns the list of statements it issued
    (`Stmt`) and the warnings it logged, so trace properties can be
    stated;
  * a failure oracle `fail : Option String` per database-touching call
    models `pymysql` raising `OperationalError` at the connection
    boundary (before any statement takes effect); `some e` carries the
    `repr` of the error, which the decorator logs;
  * Python `KeyError` on dict lookups (`run_params["extra_params"]`,
    `run_params["run_id"]`) is modelled with `Except PyError`, since
    those lookups are outside the decorator and propagate.
-/

namespace KedroDoltDemo

/-- The shapes of the SQL statements `hooks.py` issues (plus the explicit
`connection.commit()` call), one constructor per f-string in the source. -/
inductive Stmt where
  | activeBranchQuery : Stmt
  | branchExistsQuery : String → Stmt
  | checkoutCreate : String → Stmt
  | checkoutPlain : String → Stmt
  | statusQuery : Stmt
  | commitStmt : String → Stmt
  | setHead : String → String → Stmt
  | connectionCommit : Stmt
  deriving DecidableEq, Repr

/-- Observable state of the Dolt database touched by the issued statements. -/
structure DBState where
  activeBranch : String
  branches : List String
  pending : Bool
  nextCommit : String
  headVar : Option String
  deriving DecidableEq, Repr

/-- The instance fields of the Python class `KedroDolt` (from `__init__`). -/
structure KedroDolt where
  database : String
  user : String
  port : Nat
  host : String
  password : String
  branch : String
  originalBranch : Option String
  deriving DecidableEq, Repr

/-- `KedroDolt.__init__` with its default arguments. -/
def KedroDolt.init (database : String) : KedroDolt :=
  { database := database, user := "root", port := 3306, host := "localhost",
    password := "", branch := "master", originalBranch := none }

/-- Result of one decorated database-touching operation: the value returned
to the caller (`none` when the decorator swallowed an error), the database
state afterwards, the statements issued, and the warnings logged. -/
structure OpResult (α : Type) where
  value : Option α
  db : DBState
  stmts : List Stmt
  warnings : List String
  deriving DecidableEq, Repr

/-- The decorator `log_pymysql_error`: an `OperationalError` (carrying its
`repr`) is caught, logged as a warning, and the call returns `None`; the
pre-call database state is returned unchanged because the modelled failure
happens at the connection boundary, before any statement takes effect. -/
def log_pymysql_error (r : Except String (α × DBState × List Stmt))
    (db : DBState) : OpResult α :=
  match r with
  | .ok (v, db1, s) => ⟨some v, db1, s, []⟩
  | .error e => ⟨none, db, [], [e]⟩

/-- Body of `KedroDolt._active_branch`: one query, returns the `br` column. -/
def active_branch_body (fail : Option String) (db : DBState) :
    Except String (String × DBState × List Stmt) :=
  match fail with
  | some e => .error e
  | none => .ok (db.activeBranch, db, [Stmt.activeBranchQuery])

/-- `KedroDolt._active_branch` as decorated in the source. -/
def active_branch (fail : Option String) (db : DBState) : OpResult String :=
  log_pymysql_error (active_branch_body fail db) db

/-- Body of `KedroDolt._checkout_branch`: query `dolt_branches` for the
name; if `fetchone()` is `None` issue `dolt_checkout('-b', branch)`, else
issue `dolt_checkout(branch)`; then `connection.commit()`. -/
def checkout_branch_body (fail : Option String) (branch : String)
    (db : DBState) : Except String (Unit × DBState × List Stmt) :=
  match fail with
  | some e => .error e
  | none =>
    if branch ∈ db.branches then
      .ok ((), { db with activeBranch := branch },
        [Stmt.branchExistsQuery branch, Stmt.checkoutPlain branch,
         Stmt.connectionCommit])
    else
      .ok ((), { db with activeBranch := branch,
                         branches := branch :: db.branches },
        [Stmt.branchExistsQuery branch, Stmt.checkoutCreate branch,
         Stmt.connectionCommit])

/-- `KedroDolt._checkout_branch` as decorated in the source. -/
def checkout_branch (fail : Option String) (branch : String)
    (db : DBState) : OpResult Unit :=
  log_pymysql_error (checkout_branch_body fail branch db) db

/-- Body of `KedroDolt._commit`: query `dolt_status`; if `fetchone()` is
not `None`, issue `dolt_commit('-am', message)`, capture the `c` column,
issue `set @@<database>_head = res`; then `connection.commit()`; return
`res` (which stays `None` when there was nothing to commit). -/
def commit_body (fail : Option String) (database message : String)
    (db : DBState) : Except String (Option String × DBState × List Stmt) :=
  match fail with
  | some e => .error e
  | none =>
    if db.pending then
      .ok (some db.nextCommit,
        { db with pending := false, headVar := some db.nextCommit },
        [Stmt.statusQuery, Stmt.commitStmt message,
         Stmt.setHead database db.nextCommit, Stmt.connectionCommit])
    else
      .ok (none, db, [Stmt.statusQuery, Stmt.connectionCommit])

/-- `KedroDolt._commit` as decorated in the source. -/
def commit_op (fail : Option String) (database message : String)
    (db : DBState) : OpResult (Option String) :=
  log_pymysql_error (commit_body fail database message db) db

/-- A Python exception that escapes the coordinator uncaught. -/
inductive PyError where
  | keyError : String → PyError
  deriving DecidableEq, Repr

/-- The `extra_params` sub-dict: `branch := none` means the key is absent,
`some none` means it maps to Python `None`, `some (some b)` a branch name. -/
structure ExtraParams where
  branch : Option (Option String)
  deriving DecidableEq, Repr

/-- The `run_params` dict: `none` fields model a missing key, whose lookup
raises `KeyError`. -/
structure RunParams where
  extra_params : Option ExtraParams
  run_id : Option String
  deriving DecidableEq, Repr

/-- Result of `before_pipeline_run`: the mutated instance, the database
state, the statements issued, and the warnings logged. -/
structure BeforeResult where
  hook : KedroDolt
  db : DBState
  stmts : List Stmt
  warnings : List String
  deriving DecidableEq, Repr

/-- Result of `after_pipeline_run`: its return value (the commit id or
`None`) together with instance, database, statements and warnings. -/
structure AfterResult where
  commit : Option String
  hook : KedroDolt
  db : DBState
  stmts : List Stmt
  warnings : List String
  deriving DecidableEq, Repr

/-- `KedroDolt.before_pipeline_run`: if `"branch"` is in
`run_params["extra_params"]` and not `None`, set `self._branch`, record
`self._original_branch = self._active_branch()`, then
`self._checkout_branch(self._branch)`; otherwise do nothing. The lookup
`run_params["extra_params"]` is a plain dict access and raises `KeyError`
when the key is missing. -/
def before_pipeline_run (self : KedroDolt) (db : DBState)
    (run_params : RunParams) (failActive failCheckout : Option String) :
    Except PyError BeforeResult :=
  match run_params.extra_params with
  | none => .error (PyError.keyError "extra_params")
  | some ep =>
    match ep.branch with
    | some (some b) =>
      let self1 : KedroDolt := { self with branch := b }
      let r1 := active_branch failActive db
      let self2 : KedroDolt := { self1 with originalBranch := r1.value }
      let r2 := checkout_branch failCheckout self2.branch r1.db
      .ok { hook := self2, db := r2.db, stmts := r1.stmts ++ r2.stmts,
            warnings := r1.warnings ++ r2.warnings }
    | _ => .ok { hook := self, db := db, stmts := [], warnings := [] }

/-- `KedroDolt._commit_message`: the f-string
`"Update from kedro run: {run_params['run_id']}"`; the dict lookup raises
`KeyError` when `run_id` is missing. -/
def commit_message (run_params : RunParams) : Except PyError String :=
  match run_params.run_id with
  | none => .error (PyError.keyError "run_id")
  | some rid => .ok ("Update from kedro run: " ++ rid)

/-- `KedroDolt.after_pipeline_run`: build the commit message, call
`self._commit`, then if `self._original_branch is not None` call
`self._checkout_branch(self._original_branch)`; return the commit value.
Note the source never assigns `self._original_branch` here, so the
instance fields are returned unchanged. -/
def after_pipeline_run (self : KedroDolt) (db : DBState)
    (run_params : RunParams) (failCommit failCheckout : Option String) :
    Except PyError AfterResult :=
  match commit_message run_params with
  | .error e => .error e
  | .ok msg =>
    let r1 := commit_op failCommit self.database msg db
    let commit : Option String := r1.value.join
    match self.originalBranch with
    | some ob =>
      let r2 := checkout_branch failCheckout ob r1.db
      .ok { commit := commit, hook := self, db := r2.db,
            stmts := r1.stmts ++ r2.stmts,
            warnings := r1.warnings ++ r2.warnings }
    | none =>
      .ok { commit := commit, hook := self, db := r1.db,
            stmts := r1.stmts, warnings := r1.warnings }

/-- Is the statement one of the two `dolt_checkout` forms? -/
def Stmt.isCheckout : Stmt → Bool
  | .checkoutCreate _ => true
  | .checkoutPlain _ => true
  | _ => false

/-- Is the statement the create-and-checkout (`-b`) form? -/
def Stmt.isCheckoutCreate : Stmt → Bool
  | .checkoutCreate _ => true
  | _ => false

/-- Is the statement the plain checkout form? -/
def Stmt.isCheckoutPlain : Stmt → Bool
  | .checkoutPlain _ => true
  | _ => false

/-- Is the statement a `dolt_commit` call? -/
def Stmt.isCommitStmt : Stmt → Bool
  | .commitStmt _ => true
  | _ => false

/-- A hook instance as built by `KedroDolt("dolt")`. -/
def hookW : KedroDolt := KedroDolt.init "dolt"

/-- A database on branch `master` with pending changes. -/
def dbW : DBState :=
  { activeBranch := "master", branches := ["master"], pending := true,
    nextCommit := "hash1", headVar := none }

/-- Run parameters requesting branch `feature-x`. -/
def rpW : RunParams :=
  { extra_params := some { branch := some (some "feature-x") },
    run_id := some "run-1" }

/-- Run parameters whose `extra_params` dict has no `branch` key. -/
def rpNoBranch : RunParams :=
  { extra_params := some { branch := none }, run_id := some "run-1" }

/-- Run parameters missing both the `extra_params` and `run_id` keys. -/
def rpEmpty : RunParams := { extra_params := none, run_id := none }

/-- The hook state right after a `before_pipeline_run` that switched from
`master` to `feature-x`. -/
def hookSwitched : KedroDolt :=
  { hookW with branch := "feature-x", originalBranch := some "master" }

/-- The database state matching `hookSwitched`: on `feature-x`, with
pending changes. -/
def dbSwitched : DBState :=
  { activeBranch := "feature-x", branches := ["feature-x", "master"],
    pending := true, nextCommit := "abc1", headVar := none }

/-- Claim C2: when `extra_params` contains a non-null `branch` key,
`before_pipeline_run` records the previously active branch into
`originalBranch`, sets the instance branch to the requested name, and
leaves the database checked out on the requested branch. -/
theorem C2_before_run_switches_branch (self : KedroDolt) (db : DBState)
    (run_params : RunParams) (ep : ExtraParams) (b : String)
    (hep : run_params.extra_params = some ep)
    (hb : ep.branch = some (some b)) :
    (before_pipeline_run self db run_params none none).map
        (fun r => (r.hook.branch, r.hook.originalBranch, r.db.activeBranch))
      = .ok (b, some db.activeBranch, b) := by
  by_cases hc : b ∈ db.branches <;>
    simp [before_pipeline_run, hep, hb, active_branch, active_branch_body,
      checkout_branch, checkout_branch_body, log_pymysql_error, hc,
      Except.map]

/-- Witness for C2: requesting `feature-x` while `master` is active. -/
theorem C2_before_run_switches_branch_witness :
    (before_pipeline_run hookW dbW rpW none none).map
        (fun r => (r.hook.branch, r.hook.originalBranch, r.db.activeBranch))
      = .ok ("feature-x", some "master", "feature-x") :=
  C2_before_run_switches_branch hookW dbW rpW
    { branch := some (some "feature-x") } "feature-x" rfl rfl

/-- Claim C3: when the `branch` key is absent from `extra_params` (or maps
to `None`), `before_pipeline_run` returns the instance and the database
unchanged, issues no statement and logs nothing, for any failure oracle. -/
theorem C3_before_run_no_branch_noop (self : KedroDolt) (db : DBState)
    (run_params : RunParams) (ep : ExtraParams)
    (failActive failCheckout : Option String)
    (hep : run_params.extra_params = some ep)
    (hb : ep.branch = none ∨ ep.branch = some none) :
    before_pipeline_run self db run_params failActive failCheckout
      = .ok { hook := self, db := db, stmts := [], warnings := [] } := by
  rcases hb with hb | hb <;> simp [before_pipeline_run, hep, hb]

/-- Witness for C3: `extra_params` without a `branch` key. -/
theorem C3_before_run_no_branch_noop_witness :
    before_pipeline_run hookW dbW rpNoBranch none none
      = .ok { hook := hookW, db := dbW, stmts := [], warnings := [] } :=
  C3_before_run_no_branch_noop hookW dbW rpNoBranch { branch := none }
    none none rfl (Or.inl rfl)

/-- Claim C4: one call to `_checkout_branch` issues the create-and-checkout
form exactly once when the name is not in `dolt_branches`, the plain form
exactly once when it is, never both, and ends with `connection.commit()`. -/
theorem C4_checkout_branch_one_form (branch : String) (db : DBState) :
    ((checkout_branch none branch db).stmts.countP Stmt.isCheckoutCreate
        = if branch ∈ db.branches then 0 else 1) ∧
    ((checkout_branch none branch db).stmts.countP Stmt.isCheckoutPlain
        = if branch ∈ db.branches then 1 else 0) ∧
    (checkout_branch none branch db).stmts.getLast?
        = some Stmt.connectionCommit := by
  by_cases hc : branch ∈ db.branches
  · simp only [checkout_branch, checkout_branch_body, log_pymysql_error,
      if_pos hc]
    exact ⟨rfl, rfl, rfl⟩
  · simp only [checkout_branch, checkout_branch_body, log_pymysql_error,
      if_neg hc]
    exact ⟨rfl, rfl, rfl⟩

/-- Claim C5: when `dolt_status` reports no pending changes,
`after_pipeline_run` issues no `dolt_commit` statement and returns `None`;
when changes are pending it issues exactly one and returns the captured
commit reference. -/
theorem C5_after_run_commit_behavior (self : KedroDolt) (db : DBState)
    (run_params : RunParams) (rid : String)
    (hrid : run_params.run_id = some rid) :
    (after_pipeline_run self db run_params none none).map
        (fun r => (r.commit, r.stmts.countP Stmt.isCommitStmt))
      = .ok (if db.pending then (some db.nextCommit, 1) else (none, 0)) := by
  cases hob : self.originalBranch with
  | none =>
      cases hp : db.pending <;>
        simp [after_pipeline_run, commit_message, hrid, hob, commit_op,
          commit_body, log_pymysql_error, hp, Except.map, Option.join,
          List.countP_cons, Stmt.isCommitStmt]
  | some ob =>
      by_cases hc : ob ∈ db.branches <;> cases hp : db.pending <;>
        simp [after_pipeline_run, commit_message, hrid, hob, commit_op,
          commit_body, log_pymysql_error, hp, checkout_branch,
          checkout_branch_body, hc, Except.map, Option.join,
          List.countP_cons, Stmt.isCommitStmt]

/-- Witness for C5: pending changes on `master`, commit hash `hash1`. -/
theorem C5_after_run_commit_behavior_witness :
    (after_pipeline_run hookW dbW rpW none none).map
        (fun r => (r.commit, r.stmts.countP Stmt.isCommitStmt))
      = .ok (if dbW.pending then (some dbW.nextCommit, 1) else (none, 0)) :=
  C5_after_run_commit_behavior hookW dbW rpW "run-1" rfl

/-- Claim C6: the commit message built from `run_params` is exactly
`"Update from kedro run: " ++ run_id`, and when a commit happens the
`dolt_commit` statement in the trace carries exactly that message. -/
theorem C6_commit_message_format (self : KedroDolt) (db : DBState)
    (run_params : RunParams) (rid : String)
    (hrid : run_params.run_id = some rid) (hp : db.pending = true) :
    commit_message run_params = .ok ("Update from kedro run: " ++ rid) ∧
    (after_pipeline_run self db run_params none none).map
        (fun r => r.stmts.countP
            (fun s => decide (s = Stmt.commitStmt ("Update from kedro run: " ++ rid))))
      = .ok 1 := by
  refine ⟨by simp [commit_message, hrid], ?_⟩
  cases hob : self.originalBranch with
  | none =>
      simp [after_pipeline_run, commit_message, hrid, hob, commit_op,
        commit_body, log_pymysql_error, hp, Except.map, List.countP_cons]
  | some ob =>
      by_cases hc : ob ∈ db.branches <;>
        simp [after_pipeline_run, commit_message, hrid, hob, commit_op,
          commit_body, log_pymysql_error, hp, checkout_branch,
          checkout_branch_body, hc, Except.map, List.countP_cons]

/-- Witness for C6: run id `run-1` with pending changes. -/
theorem C6_commit_message_format_witness :
    commit_message rpW = .ok ("Update from kedro run: " ++ "run-1") ∧
    (after_pipeline_run hookW dbW rpW none none).map
        (fun r => r.stmts.countP
            (fun s => decide (s = Stmt.commitStmt ("Update from kedro run: " ++ "run-1"))))
      = .ok 1 :=
  C6_commit_message_format hookW dbW rpW "run-1" rfl rfl

/-- Claim C1 as stated is false on the code: after a `before_pipeline_run`
that switched `master` to `feature-x` (setting `originalBranch` to
`some "master"`), the following `after_pipeline_run` restores the branch
but never assigns `self._original_branch`, so the field is still
`some "master"` afterwards rather than cleared to `none`. -/
theorem C1_counterexample :
    ((before_pipeline_run hookW dbW rpW none none).bind
        (fun r => after_pipeline_run r.hook r.db rpW none none)).toOption.map
        (fun r2 => r2.hook.originalBranch)
      ≠ some none := by
  decide

/-- Claim C1 (amended): when `originalBranch` was set, `after_pipeline_run`
checks out back to it (one checkout statement, leaving it the active
branch) but does not clear the field: `originalBranch` keeps its value. -/
theorem C1_after_run_restores_without_clearing (self : KedroDolt)
    (db : DBState) (run_params : RunParams) (ob rid : String)
    (hob : self.originalBranch = some ob)
    (hrid : run_params.run_id = some rid) :
    (after_pipeline_run self db run_params none none).map
        (fun r => (r.db.activeBranch, r.stmts.countP Stmt.isCheckout,
                   r.hook.originalBranch))
      = .ok (ob, 1, some ob) := by
  by_cases hc : ob ∈ db.branches <;> cases hp : db.pending <;>
    simp [after_pipeline_run, commit_message, hrid, hob, commit_op,
      commit_body, log_pymysql_error, hp, checkout_branch,
      checkout_branch_body, hc, Except.map, List.countP_cons, Stmt.isCheckout]

/-- Witness for the amended C1: a run that switched from `master`. -/
theorem C1_after_run_restores_without_clearing_witness :
    (after_pipeline_run hookSwitched dbSwitched rpW none none).map
        (fun r => (r.db.activeBranch, r.stmts.countP Stmt.isCheckout,
                   r.hook.originalBranch))
      = .ok ("master", 1, some "master") :=
  C1_after_run_restores_without_clearing hookSwitched dbSwitched rpW
    "master" "run-1" rfl rfl

/-- Claim C7: each decorated database operation, when the client raises an
`OperationalError` with representation `e`, returns `None`, leaves the
database untouched, issues no statement, and logs exactly the warning `e`;
no exception escapes. -/
theorem C7_operational_error_swallowed (e : String) (db : DBState)
    (branch database message : String) :
    active_branch (some e) db = ⟨none, db, [], [e]⟩ ∧
    checkout_branch (some e) branch db = ⟨none, db, [], [e]⟩ ∧
    commit_op (some e) database message db = ⟨none, db, [], [e]⟩ :=
  ⟨rfl, rfl, rfl⟩

/-- Claim C8: a committing `_commit` call issues, in order, the status
query, the `dolt_commit` statement, the `set @@<database>_head` assignment
with the captured reference, and then `connection.commit()`; the session
head variable ends up holding the reference. -/
theorem C8_commit_sets_head_then_commits (database message : String)
    (db : DBState) (hp : db.pending = true) :
    commit_op none database message db =
      ⟨some (some db.nextCommit),
       { db with pending := false, headVar := some db.nextCommit },
       [Stmt.statusQuery, Stmt.commitStmt message,
        Stmt.setHead database db.nextCommit, Stmt.connectionCommit], []⟩ := by
  simp [commit_op, commit_body, log_pymysql_error, hp]

/-- Witness for C8: committing on `dbW` with message `msg`. -/
theorem C8_commit_sets_head_then_commits_witness :
    commit_op none "dolt" "msg" dbW =
      ⟨some (some "hash1"),
       { dbW with pending := false, headVar := some "hash1" },
       [Stmt.statusQuery, Stmt.commitStmt "msg",
        Stmt.setHead "dolt" "hash1", Stmt.connectionCommit], []⟩ :=
  C8_commit_sets_head_then_commits "dolt" "msg" dbW rfl

/-- Claim C9: a `run_params` dict without the `extra_params` key makes
`before_pipeline_run` raise `KeyError`, and one without the `run_id` key
makes `after_pipeline_run` raise `KeyError` while building the commit
message; both propagate uncaught, whatever the failure oracle. -/
theorem C9_missing_keys_raise (self : KedroDolt) (db1 db2 : DBState)
    (rp1 rp2 : RunParams) (f1 f2 g1 g2 : Option String)
    (h1 : rp1.extra_params = none) (h2 : rp2.run_id = none) :
    before_pipeline_run self db1 rp1 f1 f2
        = .error (PyError.keyError "extra_params") ∧
    after_pipeline_run self db2 rp2 g1 g2
        = .error (PyError.keyError "run_id") := by
  constructor
  · simp [before_pipeline_run, h1]
  · simp [after_pipeline_run, commit_message, h2]

/-- Witness for C9: the empty run-parameter dict. -/
theorem C9_missing_keys_raise_witness :
    before_pipeline_run hookW dbW rpEmpty none none
        = .error (PyError.keyError "extra_params") ∧
    after_pipeline_run hookW dbW rpEmpty none none
        = .error (PyError.keyError "run_id") :=
  C9_missing_keys_raise hookW dbW dbW rpEmpty rpEmpty none none none none
    rfl rfl

/-- Claim C10: when the active-branch query fails with a swallowed
`OperationalError` during a branch-switching `before_pipeline_run`,
`originalBranch` is left `none` while the branch field was already
overwritten and the checkout still proceeds (one checkout statement, the
warning logged); the subsequent `after_pipeline_run` then performs no
restore (zero checkout statements). -/
theorem C10_swallowed_active_branch_failure (self : KedroDolt)
    (db : DBState) (run_params rp2 : RunParams) (ep : ExtraParams)
    (b e rid : String)
    (hep : run_params.extra_params = some ep)
    (hb : ep.branch = some (some b))
    (hrid : rp2.run_id = some rid) :
    ((before_pipeline_run self db run_params (some e) none).bind
        (fun r => (after_pipeline_run r.hook r.db rp2 none none).map
          (fun r2 => (r.hook.originalBranch, r.hook.branch,
                      r.db.activeBranch, r.warnings,
                      r.stmts.countP Stmt.isCheckout,
                      r2.stmts.countP Stmt.isCheckout))))
      = .ok (none, b, b, [e], 1, 0) := by
  by_cases hc : b ∈ db.branches <;> cases hp : db.pending <;>
    simp [before_pipeline_run, hep, hb, active_branch, active_branch_body,
      checkout_branch, checkout_branch_body, log_pymysql_error, hc,
      after_pipeline_run, commit_message, hrid, commit_op, commit_body, hp,
      Except.bind, Except.map, List.countP_cons, Stmt.isCheckout]

/-- Witness for C10: requesting `feature-x` while the active-branch query
fails with a connection error. -/
theorem C10_swallowed_active_branch_failure_witness :
    ((before_pipeline_run hookW dbW rpW (some "err2003") none).bind
        (fun r => (after_pipeline_run r.hook r.db rpW none none).map
          (fun r2 => (r.hook.originalBranch, r.hook.branch,
                      r.db.activeBranch, r.warnings,
                      r.stmts.countP Stmt.isCheckout,
                      r2.stmts.countP Stmt.isCheckout))))
      = .ok (none, "feature-x", "feature-x", ["err2003"], 1, 0) :=
  C10_swallowed_active_branch_failure hookW dbW rpW rpW
    { branch := some (some "feature-x") } "feature-x" "err2003" "run-1"
    rfl rfl rfl

end KedroDoltDemo
